import Mathlib

/-!
Shallow embedding of the goat-barn door controller (src/V5.ino).

The sketch drives a stepper-motor barn door from RFID scans and a small
web API.  We embed its pure core: the motor state machine
(`motorOpenDoor`, `motorCloseDoor`, `motorManualOpen`, `motorUpdate`),
the occupancy tracker (`barnAddGoat`, `barnRemoveGoat`), the RFID
dispatcher (`rfidCheckReader`) and the web handlers (`webHandleAPI`,
`webHandleDoorOpen`).

Conventions:
* `millis()` readings are passed in as a `now : Nat` argument; the C
  expression `millis() - t` on a 32-bit `unsigned long` is embedded as
  `ulongSub now t`, the wrap-around subtraction modulo 2^32.
* `AccelStepper` is embedded by its observable interface: the stepper
  state is a current and a target position (`distanceToGo()` is their
  difference, `moveTo` sets the target) and `motor.run()` performs at
  most one step toward the target per call; whether a step is actually
  due this tick depends on the speed/acceleration ramp, which we
  abstract as a boolean input `doStep`.
* Serial logging has no observable effect besides signalling rejection
  of a command, so the command functions return the new state paired
  with a `Bool` that is `true` when the command was accepted and
  `false` when it only logged (busy / already closed).
-/

/-- Position of the closed door (`#define POS_CLOSED 0`). -/
def POS_CLOSED : Int := 0

/-- Position of the open door (`#define POS_OPEN 1400`). -/
def POS_OPEN : Int := 1400

/-- How long the door stays open (`#define DOOR_HOLD_TIME_MS 3000`). -/
def DOOR_HOLD_TIME_MS : Nat := 3000

/-- Occupancy capacity (`#define MAX_GOATS_IN_BARN 10`). -/
def MAX_GOATS_IN_BARN : Nat := 10

/-- The motor state machine states (`MotorState_t`). -/
inductive MotorState where
  | MOTOR_IDLE
  | MOTOR_OPENING
  | MOTOR_OPEN_HOLDING
  | MOTOR_CLOSING
  | MOTOR_MANUAL_OPEN
  | MOTOR_ERROR
deriving DecidableEq, Repr

/-- The mutable globals of the motor subsystem: the state machine
variables (`motorState`, `motorStateStartTime`, `motorMoveStartTime`,
`manualMode`, `totalMoves`, `failedMoves`) together with the embedded
`AccelStepper` (current position and `moveTo` target). -/
structure MotorSys where
  motorState : MotorState
  motorStateStartTime : Nat
  motorMoveStartTime : Nat
  manualMode : Bool
  totalMoves : Nat
  failedMoves : Nat
  currentPosition : Int
  targetPosition : Int
deriving DecidableEq, Repr

/-- 32-bit unsigned wrap-around subtraction, the meaning of
`a - b` at type `unsigned long` on the target. -/
def ulongSub (a b : Nat) : Nat :=
  (a % 2 ^ 32 + (2 ^ 32 - b % 2 ^ 32)) % 2 ^ 32

/-- Embeds `motorOpenDoor` (src/V5.ino lines 116-128): rejected (busy logged,
nothing changes) unless the state is `MOTOR_IDLE` or
`MOTOR_MANUAL_OPEN`; on acceptance `moveTo(POS_OPEN)`, state becomes
`MOTOR_OPENING`, both timestamps are set to `millis()` and
`totalMoves` is incremented. -/
def motorOpenDoor (now : Nat) (s : MotorSys) : MotorSys × Bool :=
  if s.motorState ≠ .MOTOR_IDLE ∧ s.motorState ≠ .MOTOR_MANUAL_OPEN then
    (s, false)
  else
    ({ s with targetPosition := POS_OPEN,
              motorState := .MOTOR_OPENING,
              motorStateStartTime := now,
              motorMoveStartTime := now,
              totalMoves := s.totalMoves + 1 }, true)

/-- Embeds `motorCloseDoor` (src/V5.ino lines 130-141): returns at once when
the state is `MOTOR_IDLE` (already closed); otherwise
`moveTo(POS_CLOSED)`, state becomes `MOTOR_CLOSING`, the move-start
time is recorded and `manualMode` is cleared. -/
def motorCloseDoor (now : Nat) (s : MotorSys) : MotorSys × Bool :=
  if s.motorState = .MOTOR_IDLE then
    (s, false)
  else
    ({ s with targetPosition := POS_CLOSED,
              motorState := .MOTOR_CLOSING,
              motorMoveStartTime := now,
              manualMode := false }, true)

/-- Embeds `motorManualOpen` (src/V5.ino lines 143-147): sets `manualMode`
and then calls `motorOpenDoor`. -/
def motorManualOpen (now : Nat) (s : MotorSys) : MotorSys × Bool :=
  motorOpenDoor now { s with manualMode := true }

/-- Embeds `motorManualClose` (src/V5.ino lines 149-152): calls
`motorCloseDoor`. -/
def motorManualClose (now : Nat) (s : MotorSys) : MotorSys × Bool :=
  motorCloseDoor now s

/-- Embeds `motor.run()`: advances the stepper by at most one step toward the
target; `doStep` abstracts whether the ramped-speed profile makes a
step due on this call. -/
def motorRun (doStep : Bool) (s : MotorSys) : MotorSys :=
  if doStep ∧ s.currentPosition ≠ s.targetPosition then
    if s.currentPosition < s.targetPosition then
      { s with currentPosition := s.currentPosition + 1 }
    else
      { s with currentPosition := s.currentPosition - 1 }
  else s

/-- The `switch (motorState)` body of `motorUpdate`
(src/V5.ino lines 158-227), applied after `motor.run()`. -/
def motorStep (now : Nat) (s : MotorSys) : MotorSys :=
  match s.motorState with
  | .MOTOR_IDLE => s
  | .MOTOR_OPENING =>
    if s.targetPosition - s.currentPosition = 0 then
      let s1 :=
        if s.currentPosition ≠ POS_OPEN then
          { s with failedMoves := s.failedMoves + 1 }
        else s
      if s1.manualMode then
        { s1 with motorState := .MOTOR_MANUAL_OPEN }
      else
        { s1 with motorState := .MOTOR_OPEN_HOLDING, motorStateStartTime := now }
    else s
  | .MOTOR_OPEN_HOLDING =>
    if DOOR_HOLD_TIME_MS ≤ ulongSub now s.motorStateStartTime then
      { s with targetPosition := POS_CLOSED,
               motorState := .MOTOR_CLOSING,
               motorMoveStartTime := now }
    else s
  | .MOTOR_MANUAL_OPEN => s
  | .MOTOR_CLOSING =>
    if s.targetPosition - s.currentPosition = 0 then
      let s1 :=
        if s.currentPosition ≠ POS_CLOSED then
          { s with failedMoves := s.failedMoves + 1 }
        else s
      { s1 with motorState := .MOTOR_IDLE }
    else s
  | .MOTOR_ERROR => s

/-- Embeds `motorUpdate` (src/V5.ino lines 154-228): `motor.run()` first,
then the state machine switch. -/
def motorUpdate (doStep : Bool) (now : Nat) (s : MotorSys) : MotorSys :=
  motorStep now (motorRun doStep s)

/-- Embeds `motorIsIdle` (src/V5.ino lines 230-232). -/
def motorIsIdle (s : MotorSys) : Bool :=
  s.motorState = .MOTOR_IDLE ∨ s.motorState = .MOTOR_MANUAL_OPEN

/-- Embeds `motorGetStatus` (src/V5.ino lines 234-244). -/
def motorGetStatus : MotorState → String
  | .MOTOR_IDLE => "closed"
  | .MOTOR_OPENING => "opening"
  | .MOTOR_OPEN_HOLDING => "open"
  | .MOTOR_MANUAL_OPEN => "manual_open"
  | .MOTOR_CLOSING => "closing"
  | .MOTOR_ERROR => "error"

/-- Embeds `barnAddGoat` (src/V5.ino lines 256-278): linear scan for an
existing entry (no-op if found), otherwise append when under
capacity, otherwise reject and leave the list unchanged.  The array
`barnOccupants` together with `barnPopulation` is embedded as a
`List String`. -/
def barnAddGoat (name : String) (l : List String) : List String :=
  if name ∈ l then l
  else if l.length < MAX_GOATS_IN_BARN then l ++ [name]
  else l

/-- Embeds `barnRemoveGoat` (src/V5.ino lines 280-299): find the first
matching entry, remove it shifting the rest down; no-op when the name
is absent. -/
def barnRemoveGoat (name : String) : List String → List String
  | [] => []
  | x :: xs => if x = name then xs else x :: barnRemoveGoat name xs

/-- One entry of `knownGoats` (`GoatRecord_t`): a display name and a
4-byte UID. -/
structure GoatRecord where
  name : String
  uid : List Nat
deriving DecidableEq, Repr

/-- The `knownGoats` table (src/V5.ino lines 85-89). -/
def knownGoats : List GoatRecord :=
  [⟨"Bron", [0x64, 0x3E, 0x32, 0x03]⟩,
   ⟨"TFrance", [0xB9, 0x72, 0xA9, 0x11]⟩,
   ⟨"BigO", [0xF9, 0xEF, 0x61, 0x12]⟩]

/-- The scan loop of `rfidIdentifyGoat`: first record whose first four
UID bytes all match. -/
def findGoat (uid : List Nat) : List GoatRecord → Option String
  | [] => none
  | g :: rest => if g.uid = uid.take 4 then some g.name else findGoat uid rest

/-- Embeds `rfidIdentifyGoat` (src/V5.ino lines 316-331): `none` when the UID
is shorter than 4 bytes or matches no known goat. -/
def rfidIdentifyGoat (uid : List Nat) : Option String :=
  if uid.length < 4 then none else findGoat uid knownGoats

/-- The name the dispatcher uses:
`goatName ? String(goatName) : "UNKNOWN"` (src/V5.ino line 340). -/
def goatNameOf (uid : List Nat) : String :=
  (rfidIdentifyGoat uid).getD "UNKNOWN"

/-- The state touched by one reader channel of the dispatcher: the
motor globals, the occupancy list and the channel presence flag
(`lastCardStateR1` or `lastCardStateR2`, passed by reference). -/
structure SysState where
  motor : MotorSys
  barn : List String
  lastState : Bool
deriving DecidableEq, Repr

/-- Embeds `rfidCheckReader` (src/V5.ino lines 333-365).  `cardPresent`
embeds `PICC_IsNewCardPresent() && PICC_ReadCardSerial()` and `uid`
the card UID bytes.  On a rising edge (present and flag clear) the
goat is resolved, reader 1 adds it, reader 2 removes it, then the door
is opened only when not in manual mode and the motor reports idle, and
the flag is set; a poll with no card clears the flag; a poll with the
card still present and the flag set does nothing. -/
def rfidCheckReader (readerNumber : Nat) (cardPresent : Bool)
    (uid : List Nat) (now : Nat) (st : SysState) : SysState :=
  if cardPresent = true ∧ st.lastState = false then
    let goat := goatNameOf uid
    let barn :=
      if readerNumber = 1 then barnAddGoat goat st.barn
      else if readerNumber = 2 then barnRemoveGoat goat st.barn
      else st.barn
    let motor :=
      if st.motor.manualMode = false ∧ motorIsIdle st.motor = true then
        (motorOpenDoor now st.motor).1
      else st.motor
    { motor := motor, barn := barn, lastState := true }
  else if cardPresent = false then
    { st with lastState := false }
  else st

/-- An HTTP response as produced by `webServer.send`. -/
structure HttpResponse where
  code : Nat
  contentType : String
  body : String
deriving DecidableEq, Repr

/-- The goats loop of `webHandleAPI` (src/V5.ino lines 640-643): each
name quoted, a comma after every element except the last. -/
def goatsJson : List String → String
  | [] => ""
  | [g] => "\"" ++ g ++ "\""
  | g :: rest => "\"" ++ g ++ "\"" ++ "," ++ goatsJson rest

/-- Embeds `webHandleAPI` (src/V5.ino lines 634-649): the status JSON built
from the occupancy list and `motorGetStatus`. -/
def webHandleAPI (barn : List String) (ms : MotorState) : HttpResponse :=
  { code := 200,
    contentType := "application/json",
    body := "\x7b\"count\":" ++ toString barn.length ++
            ",\"doorStatus\":\"" ++ motorGetStatus ms ++
            "\",\"goats\":[" ++ goatsJson barn ++ "]\x7d" }

/-- Embeds `webHandleDoorOpen` (src/V5.ino lines 651-654): calls
`motorManualOpen` and always answers `200 text/plain "OK"`. -/
def webHandleDoorOpen (now : Nat) (s : MotorSys) : MotorSys × HttpResponse :=
  ((motorManualOpen now s).1,
   { code := 200, contentType := "text/plain", body := "OK" })

/-- Embeds `webHandleDoorClose` (src/V5.ino lines 656-659): calls
`motorManualClose` and always answers `200 text/plain "OK"`. -/
def webHandleDoorClose (now : Nat) (s : MotorSys) : MotorSys × HttpResponse :=
  ((motorManualClose now s).1,
   { code := 200, contentType := "text/plain", body := "OK" })

/-- The status body shape stated by the external-interface section of
the specification: count, door-status token, then the names in order,
comma-separated and quoted. -/
def statusBodySpec (barn : List String) (ms : MotorState) : String :=
  "\x7b\"count\":" ++ toString barn.length ++
  ",\"doorStatus\":\"" ++ motorGetStatus ms ++
  "\",\"goats\":[" ++
  String.intercalate "," (barn.map (fun g => "\"" ++ g ++ "\"")) ++ "]\x7d"

/-- Commands a client of the motor controller can issue: an `update`
tick, `requestOpen` (`motorOpenDoor`) or `requestClose`
(`motorCloseDoor`). -/
inductive MotorOp where
  | update (doStep : Bool) (now : Nat)
  | requestOpen (now : Nat)
  | requestClose (now : Nat)
deriving DecidableEq, Repr

/-- Apply one motor command. -/
def applyMotorOp (s : MotorSys) : MotorOp → MotorSys
  | .update d n => motorUpdate d n s
  | .requestOpen n => (motorOpenDoor n s).1
  | .requestClose n => (motorCloseDoor n s).1

/-- Apply a sequence of motor commands, left to right. -/
def applyMotorOps (s : MotorSys) : List MotorOp → MotorSys
  | [] => s
  | op :: rest => applyMotorOps (applyMotorOp s op) rest

/-- Whether a motor command is a `requestClose`. -/
def MotorOp.isClose : MotorOp → Bool
  | .requestClose _ => true
  | _ => false

/-- Occupancy-tracker commands issued by the dispatcher. -/
inductive BarnOp where
  | add (name : String)
  | remove (name : String)
deriving DecidableEq, Repr

/-- Apply one occupancy command. -/
def applyBarnOp (l : List String) : BarnOp → List String
  | .add n => barnAddGoat n l
  | .remove n => barnRemoveGoat n l

/-- Apply a sequence of occupancy commands, left to right. -/
def applyBarnOps (l : List String) : List BarnOp → List String
  | [] => l
  | op :: rest => applyBarnOps (applyBarnOp l op) rest

/-! ### Helper lemmas -/

theorem motorRun_motorState (d : Bool) (s : MotorSys) :
    (motorRun d s).motorState = s.motorState := by
  unfold motorRun; split_ifs <;> rfl

theorem motorRun_manualMode (d : Bool) (s : MotorSys) :
    (motorRun d s).manualMode = s.manualMode := by
  unfold motorRun; split_ifs <;> rfl

theorem motorRun_targetPosition (d : Bool) (s : MotorSys) :
    (motorRun d s).targetPosition = s.targetPosition := by
  unfold motorRun; split_ifs <;> rfl

theorem motorRun_failedMoves (d : Bool) (s : MotorSys) :
    (motorRun d s).failedMoves = s.failedMoves := by
  unfold motorRun; split_ifs <;> rfl

theorem motorRun_motorStateStartTime (d : Bool) (s : MotorSys) :
    (motorRun d s).motorStateStartTime = s.motorStateStartTime := by
  unfold motorRun; split_ifs <;> rfl

theorem motorStep_idle (now : Nat) (t : MotorSys)
    (h : t.motorState = .MOTOR_IDLE) : motorStep now t = t := by
  obtain ⟨ms, a, b, c, d, e, f, g⟩ := t
  cases ms <;> simp_all [motorStep]

theorem motorStep_manual (now : Nat) (t : MotorSys)
    (h : t.motorState = .MOTOR_MANUAL_OPEN) : motorStep now t = t := by
  obtain ⟨ms, a, b, c, d, e, f, g⟩ := t
  cases ms <;> simp_all [motorStep]

theorem motorStep_error (now : Nat) (t : MotorSys)
    (h : t.motorState = .MOTOR_ERROR) : motorStep now t = t := by
  obtain ⟨ms, a, b, c, d, e, f, g⟩ := t
  cases ms <;> simp_all [motorStep]

theorem motorStep_opening (now : Nat) (t : MotorSys)
    (h : t.motorState = .MOTOR_OPENING)
    (hd : t.targetPosition - t.currentPosition = 0) :
    motorStep now t =
      (let s1 := if t.currentPosition ≠ POS_OPEN then
          { t with failedMoves := t.failedMoves + 1 } else t
       if s1.manualMode then { s1 with motorState := .MOTOR_MANUAL_OPEN }
       else { s1 with motorState := .MOTOR_OPEN_HOLDING,
                      motorStateStartTime := now }) := by
  obtain ⟨ms, a, b, c, d, e, f, g⟩ := t
  cases ms <;> simp_all [motorStep]

theorem motorStep_holding (now : Nat) (t : MotorSys)
    (h : t.motorState = .MOTOR_OPEN_HOLDING) :
    motorStep now t =
      (if DOOR_HOLD_TIME_MS ≤ ulongSub now t.motorStateStartTime then
        { t with targetPosition := POS_CLOSED,
                 motorState := .MOTOR_CLOSING,
                 motorMoveStartTime := now }
       else t) := by
  obtain ⟨ms, a, b, c, d, e, f, g⟩ := t
  cases ms <;> simp_all [motorStep]

theorem ulongSub_eq_sub (a b : Nat) (hba : b ≤ a) (ha : a < 2 ^ 32) :
    ulongSub a b = a - b := by
  unfold ulongSub
  have h32 : (2 : Nat) ^ 32 = 4294967296 := by norm_num
  rw [h32] at ha ⊢
  omega

/-! ### Sample states used by witnesses and counterexamples -/

/-- A sample idle controller state. -/
def sampleIdle : MotorSys :=
  { motorState := .MOTOR_IDLE, motorStateStartTime := 0,
    motorMoveStartTime := 0, manualMode := false, totalMoves := 0,
    failedMoves := 0, currentPosition := 0, targetPosition := 0 }

/-- A sample controller state in the middle of opening. -/
def sampleOpening : MotorSys :=
  { motorState := .MOTOR_OPENING, motorStateStartTime := 10,
    motorMoveStartTime := 10, manualMode := false, totalMoves := 1,
    failedMoves := 0, currentPosition := 700, targetPosition := POS_OPEN }

/-- A sample controller state in the middle of closing. -/
def sampleClosing : MotorSys :=
  { motorState := .MOTOR_CLOSING, motorStateStartTime := 10,
    motorMoveStartTime := 20, manualMode := false, totalMoves := 1,
    failedMoves := 0, currentPosition := 700, targetPosition := POS_CLOSED }

/-- A sample controller state in the error state. -/
def sampleError : MotorSys :=
  { motorState := .MOTOR_ERROR, motorStateStartTime := 0,
    motorMoveStartTime := 0, manualMode := false, totalMoves := 0,
    failedMoves := 0, currentPosition := 0, targetPosition := 0 }

/-! ### C1 -/

/-- C1 counterexample: the claim puts `Opening` in the accept set of
`requestOpen` (idempotent collapse), but `motorOpenDoor` called while
the state is `MOTOR_OPENING` is rejected: it reports busy (`false`),
leaves the whole controller state unchanged and in particular does not
increment the move counter. -/
theorem motorOpenDoor_opening_rejected :
    (motorOpenDoor 42 sampleOpening).2 = false ∧
    (motorOpenDoor 42 sampleOpening).1 = sampleOpening ∧
    (motorOpenDoor 42 sampleOpening).1.totalMoves = sampleOpening.totalMoves := by
  refine ⟨rfl, rfl, rfl⟩

/-- C1 (amended): `motorOpenDoor` is accepted exactly when the state
is `MOTOR_IDLE` or `MOTOR_MANUAL_OPEN`; in every other state
(including `MOTOR_OPENING`) it is rejected with a busy signal and no
part of the controller state changes; on acceptance it sets the target
position to `POS_OPEN`, transitions to `MOTOR_OPENING`, records the
move-start time and increments the move counter. -/
theorem motorOpenDoor_spec (now : Nat) (s : MotorSys) :
    ((motorOpenDoor now s).2 = true ↔
      s.motorState = .MOTOR_IDLE ∨ s.motorState = .MOTOR_MANUAL_OPEN) ∧
    ((motorOpenDoor now s).2 = false → (motorOpenDoor now s).1 = s) ∧
    ((motorOpenDoor now s).2 = true →
      (motorOpenDoor now s).1 =
        { s with targetPosition := POS_OPEN,
                 motorState := .MOTOR_OPENING,
                 motorStateStartTime := now,
                 motorMoveStartTime := now,
                 totalMoves := s.totalMoves + 1 }) := by
  unfold motorOpenDoor
  split_ifs with h <;> simp_all
  tauto

/-- C1 witness: at the sample idle state the command is accepted and
the acceptance effects hold. -/
theorem motorOpenDoor_spec_witness :
    (motorOpenDoor 7 sampleIdle).2 = true ∧
    (motorOpenDoor 7 sampleIdle).1 =
      { sampleIdle with targetPosition := POS_OPEN,
                        motorState := .MOTOR_OPENING,
                        motorStateStartTime := 7,
                        motorMoveStartTime := 7,
                        totalMoves := sampleIdle.totalMoves + 1 } := by
  have h := motorOpenDoor_spec 7 sampleIdle
  have hacc : (motorOpenDoor 7 sampleIdle).2 = true := h.1.mpr (Or.inl rfl)
  exact ⟨hacc, h.2.2 hacc⟩

/-! ### C2 -/

/-- C2: on an `update` tick in state `MOTOR_OPENING` whose stepper
reports zero distance to go, the state transitions to
`MOTOR_MANUAL_OPEN` when the manual flag is set and to
`MOTOR_OPEN_HOLDING` (recording the hold-start time) otherwise; and
whenever the final position does not equal `POS_OPEN` the failure
counter is incremented while the same transition still takes place. -/
theorem motorUpdate_opening_spec (d : Bool) (now : Nat) (s : MotorSys)
    (hs : s.motorState = .MOTOR_OPENING)
    (hd : (motorRun d s).targetPosition - (motorRun d s).currentPosition = 0) :
    (motorUpdate d now s).motorState =
      (if s.manualMode then .MOTOR_MANUAL_OPEN else .MOTOR_OPEN_HOLDING) ∧
    (s.manualMode = false → (motorUpdate d now s).motorStateStartTime = now) ∧
    (motorUpdate d now s).failedMoves =
      (if (motorRun d s).currentPosition ≠ POS_OPEN then s.failedMoves + 1
       else s.failedMoves) ∧
    (motorUpdate d now s).manualMode = s.manualMode := by
  have ht : (motorRun d s).motorState = .MOTOR_OPENING := by
    rw [motorRun_motorState, hs]
  unfold motorUpdate
  rw [motorStep_opening now (motorRun d s) ht hd]
  rw [← motorRun_manualMode d s, ← motorRun_failedMoves d s]
  by_cases hp : (motorRun d s).currentPosition ≠ POS_OPEN <;>
    by_cases hm : (motorRun d s).manualMode = true <;>
    simp_all

/-- C2 witness: a concrete opening state that has reached the target
with the manual flag clear transitions to `MOTOR_OPEN_HOLDING`. -/
theorem motorUpdate_opening_spec_witness :
    ((motorUpdate false 99 { sampleOpening with currentPosition := POS_OPEN }).motorState =
      (if ({ sampleOpening with currentPosition := POS_OPEN } : MotorSys).manualMode then
        MotorState.MOTOR_MANUAL_OPEN else .MOTOR_OPEN_HOLDING)) ∧
    (motorUpdate false 99 { sampleOpening with currentPosition := POS_OPEN }).motorStateStartTime = 99 := by
  have h := motorUpdate_opening_spec false 99
    { sampleOpening with currentPosition := POS_OPEN } rfl (by decide)
  exact ⟨h.1, h.2.1 rfl⟩

/-! ### C3 -/

/-- C3: on an `update` tick in state `MOTOR_OPEN_HOLDING`, once at
least `DOOR_HOLD_TIME_MS` (3000 ms) have elapsed since the recorded
hold-start time the controller sets the stepper target to `POS_CLOSED`
and transitions to `MOTOR_CLOSING`; on every earlier tick the state
remains `MOTOR_OPEN_HOLDING`.  The timestamps are constrained to the
32-bit range of `millis()`. -/
theorem motorUpdate_holding_spec (d : Bool) (now : Nat) (s : MotorSys)
    (hs : s.motorState = .MOTOR_OPEN_HOLDING)
    (h1 : s.motorStateStartTime ≤ now) (h2 : now < 2 ^ 32) :
    (DOOR_HOLD_TIME_MS ≤ now - s.motorStateStartTime →
      (motorUpdate d now s).motorState = .MOTOR_CLOSING ∧
      (motorUpdate d now s).targetPosition = POS_CLOSED ∧
      (motorUpdate d now s).motorMoveStartTime = now) ∧
    (now - s.motorStateStartTime < DOOR_HOLD_TIME_MS →
      (motorUpdate d now s).motorState = .MOTOR_OPEN_HOLDING) := by
  have ht : (motorRun d s).motorState = .MOTOR_OPEN_HOLDING := by
    rw [motorRun_motorState, hs]
  have hsub : ulongSub now (motorRun d s).motorStateStartTime =
      now - s.motorStateStartTime := by
    rw [motorRun_motorStateStartTime]
    exact ulongSub_eq_sub now s.motorStateStartTime h1 h2
  unfold motorUpdate
  rw [motorStep_holding now (motorRun d s) ht, hsub]
  constructor
  · intro hle
    rw [if_pos hle]
    exact ⟨rfl, rfl, rfl⟩
  · intro hlt
    rw [if_neg (by omega)]
    exact ht

/-- A sample controller state holding the door open since time 100. -/
def sampleHolding : MotorSys :=
  { motorState := .MOTOR_OPEN_HOLDING, motorStateStartTime := 100,
    motorMoveStartTime := 10, manualMode := false, totalMoves := 1,
    failedMoves := 0, currentPosition := POS_OPEN, targetPosition := POS_OPEN }

/-- C3 witness: with the hold started at time 100, the tick at time
3100 closes the door and the tick at time 3099 does not. -/
theorem motorUpdate_holding_spec_witness :
    (motorUpdate false 3100 sampleHolding).motorState = .MOTOR_CLOSING ∧
    (motorUpdate false 3099 sampleHolding).motorState = .MOTOR_OPEN_HOLDING := by
  have ha := motorUpdate_holding_spec false 3100 sampleHolding
    rfl (by decide) (by decide)
  have hb := motorUpdate_holding_spec false 3099 sampleHolding
    rfl (by decide) (by decide)
  exact ⟨(ha.1 (by decide)).1, hb.2 (by decide)⟩

/-! ### C4 -/

/-- C4 counterexample: the claim says no sequence of `update`,
`requestOpen` and `requestClose` calls leaves the `Error` state, but
`motorCloseDoor` only early-returns in `MOTOR_IDLE`, so a single
`requestClose` issued in `MOTOR_ERROR` transitions the controller to
`MOTOR_CLOSING`. -/
theorem motorError_requestClose_escapes :
    (applyMotorOps sampleError [.requestClose 0]).motorState = .MOTOR_CLOSING ∧
    (applyMotorOps sampleError [.requestClose 0]).motorState ≠ .MOTOR_ERROR := by
  refine ⟨rfl, by decide⟩

/-- C4 (amended): `MOTOR_ERROR` is terminal for `update` and
`requestOpen`: every sequence of such calls (any sequence free of
`requestClose`) leaves the state `MOTOR_ERROR`; a `requestClose`,
however, is accepted in `MOTOR_ERROR` and transitions the controller
to `MOTOR_CLOSING`. -/
theorem motorError_terminal_spec (s : MotorSys) (ops : List MotorOp) (n : Nat)
    (hs : s.motorState = .MOTOR_ERROR) :
    ((∀ op ∈ ops, op.isClose = false) →
      (applyMotorOps s ops).motorState = .MOTOR_ERROR) ∧
    (motorCloseDoor n s).1.motorState = .MOTOR_CLOSING := by
  constructor
  · intro hops
    induction ops generalizing s with
    | nil => exact hs
    | cons op rest ih =>
      have hop := hops op (List.mem_cons_self op rest)
      have hrest : ∀ o ∈ rest, o.isClose = false := fun o ho =>
        hops o (List.mem_cons_of_mem op ho)
      have hstep : (applyMotorOp s op).motorState = .MOTOR_ERROR := by
        cases op with
        | update d m =>
          show (motorUpdate d m s).motorState = .MOTOR_ERROR
          have ht : (motorRun d s).motorState = .MOTOR_ERROR := by
            rw [motorRun_motorState, hs]
          unfold motorUpdate
          rw [motorStep_error m (motorRun d s) ht]
          exact ht
        | requestOpen m =>
          show ((motorOpenDoor m s).1).motorState = .MOTOR_ERROR
          have h1 : s.motorState ≠ .MOTOR_IDLE := by rw [hs]; exact fun h => nomatch h
          have h2 : s.motorState ≠ .MOTOR_MANUAL_OPEN := by rw [hs]; exact fun h => nomatch h
          unfold motorOpenDoor
          rw [if_pos ⟨h1, h2⟩]
          exact hs
        | requestClose m => cases hop
      exact ih (applyMotorOp s op) hstep hrest
  · have h1 : s.motorState ≠ .MOTOR_IDLE := by rw [hs]; exact fun h => nomatch h
    unfold motorCloseDoor
    rw [if_neg h1]

/-- C4 witness: from the sample error state, two updates and a
rejected open leave the state `MOTOR_ERROR`, and a close request
transitions it to `MOTOR_CLOSING`. -/
theorem motorError_terminal_spec_witness :
    (applyMotorOps sampleError
      [.update true 1, .requestOpen 2, .update false 3]).motorState = .MOTOR_ERROR ∧
    (motorCloseDoor 4 sampleError).1.motorState = .MOTOR_CLOSING := by
  have h := motorError_terminal_spec sampleError
    [.update true 1, .requestOpen 2, .update false 3] 4 rfl
  exact ⟨h.1 (by decide), h.2⟩

/-! ### C5 -/

theorem rfidCheckReader_absorbed (rn : Nat) (uid2 : List Nat) (now2 : Nat)
    (st2 : SysState) (h : st2.lastState = true) :
    rfidCheckReader rn true uid2 now2 st2 = st2 := by
  unfold rfidCheckReader
  rw [if_neg (fun hc => by rw [h] at hc; exact nomatch hc.2),
      if_neg (fun hc => nomatch hc)]

/-- C5: for a reader channel whose presence flag is clear, the first
poll of a run of consecutive card-present polls performs the single
entry/exit event (reader 1 adds the resolved goat, reader 2 removes
it) and at most one automatic door-open request, and sets the flag;
every further card-present poll of the run leaves the entire state
unchanged (so iterating them is the identity); and a poll with no card
present resets the flag so the next presence is again a rising
edge. -/
theorem rfidCheckReader_edge_spec (rn : Nat) (uid : List Nat) (now : Nat)
    (st : SysState) (h : st.lastState = false) :
    (rfidCheckReader rn true uid now st).lastState = true ∧
    (∀ uid2 now2,
      rfidCheckReader rn true uid2 now2 (rfidCheckReader rn true uid now st) =
        rfidCheckReader rn true uid now st) ∧
    (∀ k uid2 now2,
      (fun x => rfidCheckReader rn true uid2 now2 x)^[k]
          (rfidCheckReader rn true uid now st) =
        rfidCheckReader rn true uid now st) ∧
    (rn = 1 →
      (rfidCheckReader rn true uid now st).barn =
        barnAddGoat (goatNameOf uid) st.barn) ∧
    (rn = 2 →
      (rfidCheckReader rn true uid now st).barn =
        barnRemoveGoat (goatNameOf uid) st.barn) ∧
    ((rfidCheckReader rn true uid now st).motor = st.motor ∨
      (rfidCheckReader rn true uid now st).motor = (motorOpenDoor now st.motor).1) ∧
    (∀ uid3 now3 st2,
      (rfidCheckReader rn false uid3 now3 st2).lastState = false) := by
  have hfirst : (rfidCheckReader rn true uid now st).lastState = true := by
    unfold rfidCheckReader
    rw [if_pos ⟨rfl, h⟩]
  have habsorb : ∀ uid2 now2,
      rfidCheckReader rn true uid2 now2 (rfidCheckReader rn true uid now st) =
        rfidCheckReader rn true uid now st := fun uid2 now2 =>
    rfidCheckReader_absorbed rn uid2 now2 _ hfirst
  refine ⟨hfirst, habsorb, ?_, ?_, ?_, ?_, ?_⟩
  · intro k uid2 now2
    induction k with
    | zero => rfl
    | succ m ih => rw [Function.iterate_succ_apply, habsorb uid2 now2, ih]
  · intro h1
    subst h1
    unfold rfidCheckReader
    rw [if_pos ⟨rfl, h⟩]
    simp
  · intro h2
    subst h2
    unfold rfidCheckReader
    rw [if_pos ⟨rfl, h⟩]
    simp
  · unfold rfidCheckReader
    rw [if_pos ⟨rfl, h⟩]
    dsimp only
    split_ifs with hcond
    · exact Or.inr rfl
    · exact Or.inl rfl
  · intro uid3 now3 st2
    unfold rfidCheckReader
    rw [if_neg (fun hc => nomatch hc.1), if_pos rfl]

/-- A sample dispatcher state: idle motor, empty barn, flag clear. -/
def sampleSys : SysState :=
  { motor := sampleIdle, barn := [], lastState := false }

/-- C5 witness: scanning the Bron tag on reader 1 with the flag clear
sets the flag, adds Bron once, and a second present poll changes
nothing. -/
theorem rfidCheckReader_edge_spec_witness :
    (rfidCheckReader 1 true [0x64, 0x3E, 0x32, 0x03] 5 sampleSys).lastState = true ∧
    (rfidCheckReader 1 true [0x64, 0x3E, 0x32, 0x03] 5 sampleSys).barn =
      barnAddGoat (goatNameOf [0x64, 0x3E, 0x32, 0x03]) sampleSys.barn ∧
    rfidCheckReader 1 true [0x64, 0x3E, 0x32, 0x03] 6
        (rfidCheckReader 1 true [0x64, 0x3E, 0x32, 0x03] 5 sampleSys) =
      rfidCheckReader 1 true [0x64, 0x3E, 0x32, 0x03] 5 sampleSys := by
  have h := rfidCheckReader_edge_spec 1 [0x64, 0x3E, 0x32, 0x03] 5 sampleSys rfl
  exact ⟨h.1, h.2.2.2.1 rfl, h.2.1 [0x64, 0x3E, 0x32, 0x03] 6⟩

/-! ### C6 -/

theorem barnAddGoat_nodup (name : String) (l : List String) (h : l.Nodup) :
    (barnAddGoat name l).Nodup := by
  unfold barnAddGoat
  split_ifs with h1 h2
  · exact h
  · simp [List.nodup_append, h, h1]
  · exact h

theorem barnAddGoat_length (name : String) (l : List String)
    (h : l.length ≤ MAX_GOATS_IN_BARN) :
    (barnAddGoat name l).length ≤ MAX_GOATS_IN_BARN := by
  unfold barnAddGoat
  split_ifs with h1 h2
  · exact h
  · simp only [List.length_append, List.length_singleton]
    omega
  · exact h

theorem barnRemoveGoat_sublist (name : String) (l : List String) :
    (barnRemoveGoat name l).Sublist l := by
  induction l with
  | nil => exact List.Sublist.refl []
  | cons x xs ih =>
    unfold barnRemoveGoat
    split_ifs with h1
    · exact List.sublist_cons_self x xs
    · exact List.Sublist.cons₂ x ih

theorem applyBarnOps_inv (ops : List BarnOp) (l : List String)
    (hn : l.Nodup) (hl : l.length ≤ MAX_GOATS_IN_BARN) :
    (applyBarnOps l ops).Nodup ∧
    (applyBarnOps l ops).length ≤ MAX_GOATS_IN_BARN := by
  induction ops generalizing l with
  | nil => exact ⟨hn, hl⟩
  | cons op rest ih =>
    have hstep : (applyBarnOp l op).Nodup ∧
        (applyBarnOp l op).length ≤ MAX_GOATS_IN_BARN := by
      cases op with
      | add n => exact ⟨barnAddGoat_nodup n l hn, barnAddGoat_length n l hl⟩
      | remove n =>
        have hs := barnRemoveGoat_sublist n l
        exact ⟨hn.sublist hs, le_trans hs.length_le hl⟩
    exact ih (applyBarnOp l op) hstep.1 hstep.2

/-- C6: every sequence of `barnAddGoat` and `barnRemoveGoat` calls
starting from the empty occupancy list yields a list with no
duplicate names whose size never exceeds `MAX_GOATS_IN_BARN`; adding a
name already present, and adding at full capacity, leave the list
completely unchanged. -/
theorem barn_invariants_spec (ops : List BarnOp) (l : List String) (name : String) :
    (applyBarnOps [] ops).Nodup ∧
    (applyBarnOps [] ops).length ≤ MAX_GOATS_IN_BARN ∧
    (name ∈ l → barnAddGoat name l = l) ∧
    (MAX_GOATS_IN_BARN ≤ l.length → barnAddGoat name l = l) := by
  have h := applyBarnOps_inv ops [] List.nodup_nil (by simp [MAX_GOATS_IN_BARN])
  refine ⟨h.1, h.2, ?_, ?_⟩
  · intro hm
    unfold barnAddGoat
    rw [if_pos hm]
  · intro hfull
    unfold barnAddGoat
    split_ifs with h1 h2
    · rfl
    · omega
    · rfl

/-- C6 witness: a concrete command sequence stays duplicate-free and
within capacity, a duplicate add is a no-op and an add into a full
list is a no-op. -/
theorem barn_invariants_spec_witness :
    (applyBarnOps [] [.add "Bron", .add "Bron", .add "TFrance", .remove "Bron"]).Nodup ∧
    (applyBarnOps [] [.add "Bron", .add "Bron", .add "TFrance", .remove "Bron"]).length ≤
      MAX_GOATS_IN_BARN ∧
    ("Bron" ∈ ["Bron", "TFrance"] ∧ barnAddGoat "Bron" ["Bron", "TFrance"] = ["Bron", "TFrance"]) ∧
    (MAX_GOATS_IN_BARN ≤ (["a", "b", "c", "d", "e", "f", "g", "h", "i", "j"] : List String).length ∧
      barnAddGoat "Bron" ["a", "b", "c", "d", "e", "f", "g", "h", "i", "j"] =
        ["a", "b", "c", "d", "e", "f", "g", "h", "i", "j"]) := by
  have h1 := barn_invariants_spec [.add "Bron", .add "Bron", .add "TFrance", .remove "Bron"]
    ["Bron", "TFrance"] "Bron"
  have h2 := barn_invariants_spec [.add "Bron", .add "Bron", .add "TFrance", .remove "Bron"]
    ["a", "b", "c", "d", "e", "f", "g", "h", "i", "j"] "Bron"
  refine ⟨h1.1, h1.2.1, ⟨by decide, h1.2.2.1 (by decide)⟩, ⟨by decide, h2.2.2.2 (by decide)⟩⟩

/-! ### C7 -/

theorem barnRemoveGoat_eq_erase (name : String) (l : List String) :
    barnRemoveGoat name l = l.erase name := by
  induction l with
  | nil => rfl
  | cons x xs ih =>
    unfold barnRemoveGoat
    rw [List.erase_cons]
    by_cases h1 : x = name
    · rw [if_pos h1, if_pos (beq_iff_eq.mpr h1)]
    · rw [if_neg h1, if_neg (by simpa using h1), ih]

/-- C7: on a duplicate-free occupancy list containing `name` and
within capacity, `barnRemoveGoat name` followed immediately by
`barnAddGoat name` yields `l.erase name ++ [name]`: the same size as
the original, `name` as the last element, and the relative order of
the other elements preserved (`l.erase name` is `l` filtered to the
elements other than `name`), rather than restoring the original
position of `name`. -/
theorem barn_remove_add_cycle_spec (l : List String) (name : String)
    (hn : l.Nodup) (hm : name ∈ l) (hc : l.length ≤ MAX_GOATS_IN_BARN) :
    barnAddGoat name (barnRemoveGoat name l) = l.erase name ++ [name] ∧
    (barnAddGoat name (barnRemoveGoat name l)).length = l.length ∧
    (barnAddGoat name (barnRemoveGoat name l)).getLast? = some name ∧
    l.erase name = l.filter (fun x => x != name) := by
  have hrm : barnRemoveGoat name l = l.erase name := barnRemoveGoat_eq_erase name l
  have hnm : name ∉ l.erase name := hn.not_mem_erase
  have hlen : (l.erase name).length = l.length - 1 := List.length_erase_of_mem hm
  have hpos : 1 ≤ l.length := List.length_pos.mpr (List.ne_nil_of_mem hm)
  have hmain : barnAddGoat name (barnRemoveGoat name l) = l.erase name ++ [name] := by
    rw [hrm]
    unfold barnAddGoat
    rw [if_neg hnm, if_pos (by rw [hlen]; unfold MAX_GOATS_IN_BARN at hc ⊢; omega)]
  refine ⟨hmain, ?_, ?_, hn.erase_eq_filter name⟩
  · rw [hmain]
    simp only [List.length_append, List.length_singleton]
    omega
  · rw [hmain]
    exact List.getLast?_concat _

/-- C7 witness: removing then re-adding TFrance from a three-goat list
appends it at the end while Bron and BigO keep their order. -/
theorem barn_remove_add_cycle_spec_witness :
    barnAddGoat "TFrance" (barnRemoveGoat "TFrance" ["Bron", "TFrance", "BigO"]) =
      (["Bron", "TFrance", "BigO"].erase "TFrance") ++ ["TFrance"] ∧
    (barnAddGoat "TFrance" (barnRemoveGoat "TFrance" ["Bron", "TFrance", "BigO"])).length =
      (["Bron", "TFrance", "BigO"] : List String).length := by
  have h := barn_remove_add_cycle_spec ["Bron", "TFrance", "BigO"] "TFrance"
    (by decide) (by decide) (by decide)
  exact ⟨h.1, h.2.1⟩

/-! ### C8 -/

/-- C8: the handler `webHandleDoorOpen` answers `200 text/plain "OK"` in every
controller state, including the states in which the underlying open
command is rejected; in particular, invoked while the controller is
`MOTOR_CLOSING`, the door state remains `MOTOR_CLOSING` and the
response is still OK. -/
theorem webHandleDoorOpen_spec (now : Nat) (s : MotorSys) :
    (webHandleDoorOpen now s).2 =
      { code := 200, contentType := "text/plain", body := "OK" } ∧
    (s.motorState = .MOTOR_CLOSING →
      (webHandleDoorOpen now s).1.motorState = .MOTOR_CLOSING) := by
  refine ⟨rfl, ?_⟩
  intro h
  unfold webHandleDoorOpen motorManualOpen motorOpenDoor
  rw [if_pos ⟨by simp [h], by simp [h]⟩]
  exact h

/-- C8 witness: at the sample closing state the response is OK and the
state stays `MOTOR_CLOSING`. -/
theorem webHandleDoorOpen_spec_witness :
    (webHandleDoorOpen 9 sampleClosing).2 =
      { code := 200, contentType := "text/plain", body := "OK" } ∧
    (webHandleDoorOpen 9 sampleClosing).1.motorState = .MOTOR_CLOSING := by
  have h := webHandleDoorOpen_spec 9 sampleClosing
  exact ⟨h.1, h.2 rfl⟩

/-! ### C9 -/

theorem intercalate_go_append (sep p q : String) (zs : List String) :
    String.intercalate.go (p ++ q) sep zs = p ++ String.intercalate.go q sep zs := by
  induction zs generalizing q with
  | nil => rfl
  | cons z zs ih =>
    show String.intercalate.go (p ++ q ++ sep ++ z) sep zs =
      p ++ String.intercalate.go (q ++ sep ++ z) sep zs
    rw [String.append_assoc (p ++ q) sep z, String.append_assoc p q (sep ++ z),
        ← String.append_assoc q sep z, ih]

theorem intercalate_cons_cons (sep x y : String) (zs : List String) :
    String.intercalate sep (x :: y :: zs) =
      x ++ sep ++ String.intercalate sep (y :: zs) := by
  show String.intercalate.go x sep (y :: zs) =
    x ++ sep ++ String.intercalate.go y sep zs
  show String.intercalate.go (x ++ sep ++ y) sep zs = _
  rw [String.append_assoc x sep y, intercalate_go_append sep x (sep ++ y) zs,
      intercalate_go_append sep sep y zs,
      ← String.append_assoc x sep (String.intercalate.go y sep zs)]

theorem goatsJson_eq_intercalate (l : List String) :
    goatsJson l =
      String.intercalate "," (l.map (fun g => "\"" ++ g ++ "\"")) := by
  induction l with
  | nil => rfl
  | cons a as ih =>
    cases as with
    | nil => rfl
    | cons b bs =>
      show "\"" ++ a ++ "\"" ++ "," ++ goatsJson (b :: bs) = _
      rw [List.map_cons, List.map_cons, intercalate_cons_cons, ih, List.map_cons]

/-- C9: for every occupancy list and controller state the status
endpoint returns `200 application/json` with body exactly of the
specified shape: the count is the number of names, the names appear in
list (insertion) order, and the door-status token is one of the six
fixed tokens; in particular occupancy `["Bron"]` with door state
`MOTOR_OPENING` renders as
`\x7b"count":1,"doorStatus":"opening","goats":["Bron"]\x7d`. -/
theorem webHandleAPI_spec (barn : List String) (ms : MotorState) :
    webHandleAPI barn ms =
      { code := 200, contentType := "application/json",
        body := statusBodySpec barn ms } ∧
    motorGetStatus ms ∈
      ["closed", "opening", "open", "manual_open", "closing", "error"] ∧
    webHandleAPI ["Bron"] .MOTOR_OPENING =
      { code := 200, contentType := "application/json",
        body := "\x7b\"count\":1,\"doorStatus\":\"opening\",\"goats\":[\"Bron\"]\x7d" } := by
  refine ⟨?_, ?_, by rfl⟩
  · unfold webHandleAPI statusBodySpec
    rw [goatsJson_eq_intercalate]
  · cases ms <;> simp [motorGetStatus]

/-! ### C10 -/

/-- C10: a rejected manual open still sets the manual flag.
`motorManualOpen` sets `manualMode` before the acceptance check, so
`webHandleDoorOpen` invoked in `MOTOR_OPENING`, `MOTOR_OPEN_HOLDING`
or `MOTOR_CLOSING` leaves the controller unchanged except that
`manualMode` becomes true; consequently an automatic `MOTOR_OPENING`
that completes with the flag set ends in `MOTOR_MANUAL_OPEN` instead
of `MOTOR_OPEN_HOLDING`; tag scans never issue a door-open request
while the flag is set (the dispatcher leaves the motor untouched); and
`motorCloseDoor` invoked in `MOTOR_IDLE` returns without clearing the
flag. -/
theorem manual_flag_leak_spec (s : MotorSys) (now : Nat) (d : Bool)
    (rn : Nat) (uid : List Nat) (st : SysState) :
    ((s.motorState = .MOTOR_OPENING ∨ s.motorState = .MOTOR_OPEN_HOLDING ∨
        s.motorState = .MOTOR_CLOSING) →
      (webHandleDoorOpen now s).1 = { s with manualMode := true }) ∧
    (s.motorState = .MOTOR_OPENING → s.manualMode = true →
      (motorRun d s).targetPosition - (motorRun d s).currentPosition = 0 →
      (motorUpdate d now s).motorState = .MOTOR_MANUAL_OPEN) ∧
    (st.motor.manualMode = true →
      (rfidCheckReader rn true uid now st).motor = st.motor) ∧
    (s.motorState = .MOTOR_IDLE → (motorCloseDoor now s).1 = s) := by
  refine ⟨?_, ?_, ?_, ?_⟩
  · intro hst
    unfold webHandleDoorOpen motorManualOpen motorOpenDoor
    rw [if_pos]
    constructor <;> rcases hst with h | h | h <;> simp [h]
  · intro hs hman hd
    have ht : (motorRun d s).motorState = .MOTOR_OPENING := by
      rw [motorRun_motorState, hs]
    have htm : (motorRun d s).manualMode = true := by
      rw [motorRun_manualMode, hman]
    unfold motorUpdate
    rw [motorStep_opening now (motorRun d s) ht hd]
    by_cases hp : (motorRun d s).currentPosition ≠ POS_OPEN <;> simp_all
  · intro hman
    unfold rfidCheckReader
    by_cases hl : st.lastState = false
    · rw [if_pos ⟨rfl, hl⟩]
      dsimp only
      rw [if_neg (fun hc => by rw [hman] at hc; exact nomatch hc.1)]
    · rw [if_neg (fun hc => hl hc.2), if_neg (fun hc => nomatch hc)]
  · intro hs
    unfold motorCloseDoor
    rw [if_pos hs]

/-- C10 witness: a manual open during closing keeps the door closing
but sets the flag; with the flag set, an opening that reaches its
target ends manually open, a Bron scan leaves the motor untouched, and
a close request in idle does not clear the flag. -/
theorem manual_flag_leak_spec_witness :
    (webHandleDoorOpen 9 sampleClosing).1 =
      { sampleClosing with manualMode := true } ∧
    (motorUpdate false 9
      { sampleOpening with manualMode := true, currentPosition := POS_OPEN }).motorState =
      .MOTOR_MANUAL_OPEN ∧
    (rfidCheckReader 1 true [0x64, 0x3E, 0x32, 0x03] 9
      { sampleSys with motor := { sampleIdle with manualMode := true } }).motor =
      { sampleIdle with manualMode := true } ∧
    (motorCloseDoor 9 { sampleIdle with manualMode := true }).1 =
      { sampleIdle with manualMode := true } := by
  refine ⟨(manual_flag_leak_spec sampleClosing 9 false 1 [] sampleSys).1 (Or.inr (Or.inr rfl)),
    (manual_flag_leak_spec
      { sampleOpening with manualMode := true, currentPosition := POS_OPEN }
      9 false 1 [] sampleSys).2.1 rfl rfl (by decide),
    (manual_flag_leak_spec sampleIdle 9 false 1 [0x64, 0x3E, 0x32, 0x03]
      { sampleSys with motor := { sampleIdle with manualMode := true } }).2.2.1 rfl,
    (manual_flag_leak_spec { sampleIdle with manualMode := true } 9 false 1 []
      sampleSys).2.2.2 rfl⟩
